import Mathlib

/-!
Verification of the job-posting REST API (Express + Mongoose + Socket.IO).

Shallow embedding of the request handlers:
  * `routes/applications.js` — the application submission pipeline
    (validation → job resolution → persistence → best-effort notification);
  * `routes/jobs.js` — job search, create, update, delete;
  * `routes/auth.js` — employer login;
  * `server.js` — the in-memory presence registry (`employerSockets`).

Persistence is modelled by explicit state passing over lists; MongoDB
documents become Lean structures; the Socket.IO emit becomes a list of
(channelId, event) pairs produced by a submission.
-/

namespace JobApi

/-- Salary range of a job posting (`salaryRange: { min, max }` in `models/Job.js`;
both numeric and required). -/
structure SalaryRange where
  min : Int
  max : Int
  deriving Repr, DecidableEq

/-- A stored job posting (`models/Job.js`). `id` is the MongoDB `_id` as a string;
`employerId` is stored as a String in the schema. -/
structure Job where
  id : String
  title : String
  description : String
  location : String
  salaryRange : SalaryRange
  employerId : String
  deriving Repr, DecidableEq

/-- A stored candidate application (`models/Application.js`). `id` models the
generated MongoDB identifier (as a counter), `jobId` references a Job. -/
structure Application where
  id : Nat
  candidateName : String
  candidateEmail : String
  jobId : String
  deriving Repr, DecidableEq

/-- A stored employer account (`models/Employer.js`, referenced from
`routes/auth.js`): the `password` field holds the bcrypt hash. -/
structure Employer where
  id : String
  name : String
  email : String
  password : String
  deriving Repr, DecidableEq

/-- Candidate part of the notification payload emitted on submission
(`routes/applications.js` line 124). -/
structure CandidatePayload where
  candidateName : String
  candidateEmail : String
  deriving Repr, DecidableEq

/-- Payload of the `newApplication` Socket.IO event
(`routes/applications.js` lines 122-125). -/
structure NewApplicationEvent where
  jobId : String
  candidate : CandidatePayload
  deriving Repr, DecidableEq

/-- The mutable server state: the Job collection, the Application collection,
the generator for the next application identifier, and the in-memory
`employerSockets` map of `server.js` (an insertion-ordered association list from
employerId to socket id, matching JS object key order). -/
structure AppState where
  jobs : List Job
  applications : List Application
  nextAppId : Nat
  employerSockets : List (String × String)
  deriving Repr, DecidableEq

/-- Hexadecimal digit test, for MongoDB ObjectId well-formedness. -/
def isHexDigit (c : Char) : Bool :=
  c.isDigit || ('a' ≤ c && c ≤ 'f') || ('A' ≤ c && c ≤ 'F')

/-- The `isMongoId` validator: a 24-character hexadecimal string. -/
def isMongoId (s : String) : Bool :=
  s.length == 24 && s.data.all isHexDigit

/-- Modelled from the spec: `candidateEmail must match a valid email grammar` —
the external `express-validator` `isEmail` check (library code, not in this
repository), simplified to: exactly one at-sign, non-empty local part, domain
containing a dot with non-empty labels and no spaces. -/
def isEmail (s : String) : Bool :=
  let cs := s.data
  let loc := cs.takeWhile (fun c => c != '@')
  let domain := (cs.dropWhile (fun c => c != '@')).drop 1
  (cs.count '@' == 1) && !loc.isEmpty && !domain.isEmpty &&
  domain.contains '.' && !cs.contains ' ' &&
  (domain.head? != some '.') && (domain.getLast? != some '.')

/-- Validation chain of POST `/api/applications/:jobId/apply`
(`routes/applications.js` lines 80-91): jobId must be a Mongo id, candidateName
non-empty, candidateEmail a valid email; errors are collected in order. -/
def validateSubmission (jobId candidateName candidateEmail : String) : List String :=
  (if isMongoId jobId then [] else ["Invalid job ID"]) ++
  (if candidateName != "" then [] else ["Candidate name is required"]) ++
  (if isEmail candidateEmail then [] else ["A valid candidate email is required"])

/-- `Job.findById(jobId)`: look a job up by its identifier. -/
def findJob (jobs : List Job) (jobId : String) : Option Job :=
  jobs.find? (fun j => decide (j.id = jobId))

/-- Lookup in the `employerSockets` map: `req.employerSockets?.[job.employerId]`
(`routes/applications.js` line 121). -/
def registryLookup (reg : List (String × String)) (employerId : String) : Option String :=
  (reg.find? (fun e => decide (e.fst = employerId))).map Prod.snd

/-- Result of a submission: 400 with the validation errors, 404 when the job is
absent, or 201 with the persisted application. -/
inductive SubmitResult where
  | badRequest (errors : List String)
  | jobNotFound
  | created (app : Application)
  deriving Repr, DecidableEq

/-- HTTP status corresponding to each submission outcome
(`routes/applications.js` lines 95, 106, 130). -/
def SubmitResult.status : SubmitResult → Nat
  | .badRequest _ => 400
  | .jobNotFound => 404
  | .created _ => 201

/-- Full outcome of one submission request: the response, the new server state,
and the list of (socket id, event) pairs emitted to the real-time channel. -/
structure SubmitOutcome where
  result : SubmitResult
  state : AppState
  emitted : List (String × NewApplicationEvent)
  deriving Repr, DecidableEq

/-- The application submission pipeline, POST `/api/applications/:jobId/apply`
(`routes/applications.js` lines 92-135): validate, resolve the job (404 if
absent), unconditionally insert a new Application, then emit one
`newApplication` event to the owning employer's socket when one is registered
(`req.io?.to(req.employerSockets?.[job.employerId])?.emit(...)`) and none
otherwise; the 201 response carries the persisted application either way. -/
def submitApplication (st : AppState) (jobId candidateName candidateEmail : String) :
    SubmitOutcome :=
  let errors := validateSubmission jobId candidateName candidateEmail
  if errors ≠ [] then
    ⟨.badRequest errors, st, []⟩
  else
    match findJob st.jobs jobId with
    | none => ⟨.jobNotFound, st, []⟩
    | some job =>
      let app : Application :=
        ⟨st.nextAppId, candidateName, candidateEmail, jobId⟩
      let st' : AppState :=
        { st with
          applications := st.applications ++ [app],
          nextAppId := st.nextAppId + 1 }
      let emitted :=
        match registryLookup st.employerSockets job.employerId with
        | some ch => [(ch, ⟨job.id, ⟨candidateName, candidateEmail⟩⟩)]
        | none => []
      ⟨.created app, st', emitted⟩

/-- The `register` socket event (`server.js` lines 42-49):
`employerSockets[data.employerId] = socket.id`. JS object assignment keeps an
existing key at its original position and overwrites its value; a new key is
appended. -/
def registerChannel (reg : List (String × String)) (employerId socketId : String) :
    List (String × String) :=
  if reg.any (fun e => decide (e.fst = employerId)) then
    reg.map (fun e => if e.fst = employerId then (employerId, socketId) else e)
  else
    reg ++ [(employerId, socketId)]

/-- The `disconnect` socket event (`server.js` lines 52-60): scan
`Object.entries(employerSockets)` in key order, delete the first entry whose
value equals the disconnecting socket's id, then `break`. -/
def disconnectChannel : List (String × String) → String → List (String × String)
  | [], _ => []
  | e :: rest, socketId =>
      if e.snd = socketId then rest else e :: disconnectChannel rest socketId

/-- A JavaScript string-valued body field as the update handler sees it:
absent (`undefined`), `null`, or a string. Both `undefined` and `null` and the
empty string are falsy in the `x || old` idiom. -/
inductive JsStr where
  | undef
  | nullv
  | str (s : String)
  deriving Repr, DecidableEq

/-- JS truthiness of a string-valued field: only a non-empty string is truthy. -/
def JsStr.truthy : JsStr → Bool
  | .str s => s != ""
  | _ => false

/-- The `x || old` fallback used in the update handler
(`routes/jobs.js` lines 317-320). -/
def JsStr.orOld (v : JsStr) (old : String) : String :=
  match v with
  | .str s => if s = "" then old else s
  | _ => old

/-- Body of PUT `/api/jobs/:id`: each scalar field may be absent, null, or a
string; `salaryRange` is either a truthy object (`some`) or a falsy value —
absent or null — (`none`), since every JS object is truthy. -/
structure UpdateBody where
  title : JsStr
  description : JsStr
  location : JsStr
  salaryRange : Option SalaryRange
  deriving Repr, DecidableEq

/-- An `optional().notEmpty()` check (`routes/jobs.js` lines 284-292): skipped
when the field is absent; `null` coerces to the empty string and fails
`notEmpty`; a supplied string must be non-empty. -/
def optionalNotEmpty (v : JsStr) : Bool :=
  match v with
  | .undef => true
  | .nullv => false
  | .str s => s != ""

/-- Validation chain of PUT `/api/jobs/:id` (`routes/jobs.js` lines 283-300).
The `salaryRange.min` and `salaryRange.max` checks are `optional().isNumeric()`
and always pass here because the embedding types them as integers. -/
def validateUpdateBody (b : UpdateBody) : List String :=
  (if optionalNotEmpty b.title then [] else ["Title cannot be empty"]) ++
  (if optionalNotEmpty b.description then [] else ["Description cannot be empty"]) ++
  (if optionalNotEmpty b.location then [] else ["Location cannot be empty"])

/-- Field-by-field update applied to the stored job
(`routes/jobs.js` lines 317-320): `job.title = title || job.title` and so on;
`employerId` and the record identity are not touched. -/
def applyUpdate (job : Job) (b : UpdateBody) : Job :=
  { job with
    title := b.title.orOld job.title,
    description := b.description.orOld job.description,
    location := b.location.orOld job.location,
    salaryRange := b.salaryRange.getD job.salaryRange }

/-- Result of PUT `/api/jobs/:id`: 400, 404, 403 or 200 with the saved job. -/
inductive UpdateResult where
  | badRequest (errors : List String)
  | jobNotFound
  | forbidden
  | ok (job : Job)
  deriving Repr, DecidableEq

/-- HTTP status of each update outcome (`routes/jobs.js` lines 305, 309, 311, 322). -/
def UpdateResult.status : UpdateResult → Nat
  | .badRequest _ => 400
  | .jobNotFound => 404
  | .forbidden => 403
  | .ok _ => 200

/-- PUT `/api/jobs/:id` (`routes/jobs.js` lines 279-327): validate, resolve the
job (404 if absent), compare `job.employerId.toString() !== req.user.id.toString()`
(403 on mismatch), otherwise apply the `|| `-fallback updates and save.
`userId` is the subject id of the already-verified JWT (`req.user.id`). -/
def updateJob (jobs : List Job) (userId jobId : String) (b : UpdateBody) :
    UpdateResult × List Job :=
  let errors :=
    (if isMongoId jobId then [] else ["Invalid job ID"]) ++ validateUpdateBody b
  if errors ≠ [] then (.badRequest errors, jobs)
  else
    match findJob jobs jobId with
    | none => (.jobNotFound, jobs)
    | some job =>
      if job.employerId ≠ userId then (.forbidden, jobs)
      else
        let j' := applyUpdate job b
        (.ok j', jobs.map (fun j => if j.id = jobId then j' else j))

/-- Result of DELETE `/api/jobs/:id`: 400, 404, 403 or 200. -/
inductive DeleteResult where
  | badRequest (errors : List String)
  | jobNotFound
  | forbidden
  | deleted
  deriving Repr, DecidableEq

/-- HTTP status of each delete outcome (`routes/jobs.js` lines 362, 369, 374, 379). -/
def DeleteResult.status : DeleteResult → Nat
  | .badRequest _ => 400
  | .jobNotFound => 404
  | .forbidden => 403
  | .deleted => 200

/-- DELETE `/api/jobs/:id` (`routes/jobs.js` lines 355-384): validate the id,
resolve the job (404 if absent), compare owner (403 on mismatch), then
`Job.findByIdAndDelete` removes the stored record. -/
def deleteJob (jobs : List Job) (userId jobId : String) : DeleteResult × List Job :=
  if ¬ isMongoId jobId then (.badRequest ["Invalid job ID"], jobs)
  else
    match findJob jobs jobId with
    | none => (.jobNotFound, jobs)
    | some job =>
      if job.employerId ≠ userId then (.forbidden, jobs)
      else (.deleted, jobs.filter (fun j => ¬ (j.id = jobId)))

/-- Body of POST `/api/jobs`: the handler destructures title, description,
location and salaryRange from the request body. -/
structure CreateJobBody where
  title : String
  description : String
  location : String
  salaryRange : SalaryRange
  deriving Repr, DecidableEq

/-- Validation chain of POST `/api/jobs` (`routes/jobs.js` lines 206-214):
title, description and location must be non-empty; the two salary checks are
`isNumeric` and always pass here because the embedding types them as integers. -/
def validateCreateJob (b : CreateJobBody) : List String :=
  (if b.title != "" then [] else ["Title is required"]) ++
  (if b.description != "" then [] else ["Description is required"]) ++
  (if b.location != "" then [] else ["Location is required"])

/-- Result of POST `/api/jobs`: 400 on validation, 403 when no employer
identity is attached to the request, 201 with the created job. -/
inductive CreateResult where
  | badRequest (errors : List String)
  | forbiddenNoEmployer
  | created (job : Job)
  deriving Repr, DecidableEq

/-- HTTP status of each create outcome (`routes/jobs.js` lines 219, 228, 240). -/
def CreateResult.status : CreateResult → Nat
  | .badRequest _ => 400
  | .forbiddenNoEmployer => 403
  | .created _ => 201

/-- POST `/api/jobs` (`routes/jobs.js` lines 202-245). The `authenticateJWT`
middleware is commented out on this route, so `req.user` is whatever upstream
middleware left — with none, it is `undefined`. The handler reads
`employerId = req.user?.id` and returns 403 `Unauthorized: Employer ID missing.`
when it is absent; otherwise it saves and returns the new job with 201.
`user` models `req.user?.id`; `newId` models the generated MongoDB id. -/
def createJob (jobs : List Job) (newId : String) (user : Option String)
    (b : CreateJobBody) : CreateResult × List Job :=
  let errors := validateCreateJob b
  if errors ≠ [] then (.badRequest errors, jobs)
  else
    match user with
    | none => (.forbiddenNoEmployer, jobs)
    | some employerId =>
      let job : Job := ⟨newId, b.title, b.description, b.location, b.salaryRange, employerId⟩
      (.created job, jobs ++ [job])

/-- GET `/api/jobs` search (`routes/jobs.js` lines 54-87). The optional
`$text` free-text filter on title/location is MongoDB-internal, so it is a
predicate parameter (`none` when neither title nor location was given); the
salary filters are exactly the Mongo conditions built at lines 70-75:
`salaryRange.min: { $gte: minSalary }` and `salaryRange.max: { $lte: maxSalary }`. -/
def searchJobs (jobs : List Job) (textFilter : Option (Job → Bool))
    (minSalary maxSalary : Option Int) : List Job :=
  jobs.filter (fun j =>
    (match textFilter with | some p => p j | none => true) &&
    (match minSalary with | some m => decide (m ≤ j.salaryRange.min) | none => true) &&
    (match maxSalary with | some m => decide (j.salaryRange.max ≤ m) | none => true))

/-- Result of POST `/api/auth/login`: 400 on validation, 401 with a message, or
200 with the signed token payload `(id, email)`. -/
inductive LoginResult where
  | badRequest (errors : List String)
  | unauthorized (message : String)
  | okToken (subjectId : String) (email : String)
  deriving Repr, DecidableEq

/-- POST `/api/auth/login` (`routes/auth.js` lines 80-121): validate the input,
find the employer by email, 401 `Invalid email or password` when absent, compare
the password against the stored bcrypt hash with the same 401 on mismatch, and
issue a token embedding `id` and `email` on success. `bcryptCompare` stands for
the external `bcrypt.compare` (plaintext, hash). -/
def loginEmployer (employers : List Employer) (bcryptCompare : String → String → Bool)
    (email password : String) : LoginResult :=
  let errors :=
    (if isEmail email then [] else ["A valid email is required"]) ++
    (if password != "" then [] else ["Password is required"])
  if errors ≠ [] then .badRequest errors
  else
    match employers.find? (fun e => decide (e.email = email)) with
    | none => .unauthorized "Invalid email or password"
    | some emp =>
      if bcryptCompare password emp.password then .okToken emp.id emp.email
      else .unauthorized "Invalid email or password"

/-! Theorems. -/

/-- C1: for every well-formed jobId referencing an existing Job, non-empty
candidateName and valid candidateEmail, the submission returns a 201 success
whose persisted Application has jobId equal to the input jobId and
candidateEmail equal to the input candidateEmail, unchanged, and that
application is in the store afterwards. -/
theorem submit_success_round_trip (st : AppState)
    (jobId candidateName candidateEmail : String) (job : Job)
    (hv : validateSubmission jobId candidateName candidateEmail = [])
    (hj : findJob st.jobs jobId = some job) :
    ∃ app : Application,
      (submitApplication st jobId candidateName candidateEmail).result = .created app ∧
      (submitApplication st jobId candidateName candidateEmail).result.status = 201 ∧
      app.jobId = jobId ∧
      app.candidateEmail = candidateEmail ∧
      app ∈ (submitApplication st jobId candidateName candidateEmail).state.applications := by
  refine ⟨⟨st.nextAppId, candidateName, candidateEmail, jobId⟩, ?_, ?_, rfl, rfl, ?_⟩ <;>
    simp [submitApplication, hv, hj, SubmitResult.status]

/-- C2: a well-formed jobId that references no existing Job makes the
submission fail with 404 NotFound, the state (hence the Application store) is
unchanged, no event is emitted, and the outcome is the same however the
Presence Registry is populated. -/
theorem submit_missing_job_not_found (st : AppState)
    (jobId candidateName candidateEmail : String)
    (hv : validateSubmission jobId candidateName candidateEmail = [])
    (hj : findJob st.jobs jobId = none) :
    (submitApplication st jobId candidateName candidateEmail).result = .jobNotFound ∧
    (submitApplication st jobId candidateName candidateEmail).result.status = 404 ∧
    (submitApplication st jobId candidateName candidateEmail).state = st ∧
    (submitApplication st jobId candidateName candidateEmail).emitted = [] ∧
    ∀ reg : List (String × String),
      (submitApplication { st with employerSockets := reg }
        jobId candidateName candidateEmail).result = .jobNotFound := by
  refine ⟨?_, ?_, ?_, ?_, fun reg => ?_⟩ <;>
    simp [submitApplication, hv, SubmitResult.status] <;>
    first
      | exact hj
      | simp [show findJob st.jobs jobId = none from hj]

/-- C3: on a successful submission, exactly one newApplication event with
payload jobId and candidate (candidateName, candidateEmail) goes to the channel
registered for the owning employer when there is one, zero events go out when
there is none, the response is 201 in both cases, and the response and the
stored applications are independent of the Presence Registry (so notification
can never fail the submission). -/
theorem submit_notification_dispatch (st : AppState)
    (jobId candidateName candidateEmail : String) (job : Job)
    (hv : validateSubmission jobId candidateName candidateEmail = [])
    (hj : findJob st.jobs jobId = some job) :
    (∀ ch, registryLookup st.employerSockets job.employerId = some ch →
        (submitApplication st jobId candidateName candidateEmail).emitted
          = [(ch, ⟨jobId, ⟨candidateName, candidateEmail⟩⟩)]) ∧
    (registryLookup st.employerSockets job.employerId = none →
        (submitApplication st jobId candidateName candidateEmail).emitted = []) ∧
    (submitApplication st jobId candidateName candidateEmail).result.status = 201 ∧
    ∀ reg : List (String × String),
      (submitApplication { st with employerSockets := reg }
          jobId candidateName candidateEmail).result
        = (submitApplication st jobId candidateName candidateEmail).result ∧
      (submitApplication { st with employerSockets := reg }
          jobId candidateName candidateEmail).state.applications
        = (submitApplication st jobId candidateName candidateEmail).state.applications := by
  have hid : job.id = jobId := by
    have h := List.find?_some hj
    simpa using h
  refine ⟨fun ch hch => ?_, fun hnone => ?_, ?_, fun reg => ⟨?_, ?_⟩⟩
  · simp [submitApplication, hv, hj, hch, hid]
  · simp [submitApplication, hv, hj, hnone]
  · simp [submitApplication, hv, hj, SubmitResult.status]
  · simp [submitApplication, hv, hj]
  · simp [submitApplication, hv, hj]

/-- C6: two successive submissions with the same (candidateEmail, jobId) to an
existing job both succeed, and afterwards the Application store holds two
distinct records carrying that candidateEmail and jobId. -/
theorem submit_duplicate_applications (st : AppState)
    (jobId candidateName candidateEmail : String) (job : Job)
    (hv : validateSubmission jobId candidateName candidateEmail = [])
    (hj : findJob st.jobs jobId = some job) :
    ∃ a1 a2 : Application,
      (submitApplication st jobId candidateName candidateEmail).result = .created a1 ∧
      (submitApplication (submitApplication st jobId candidateName candidateEmail).state
          jobId candidateName candidateEmail).result = .created a2 ∧
      a1 ≠ a2 ∧
      a1 ∈ (submitApplication (submitApplication st jobId candidateName candidateEmail).state
          jobId candidateName candidateEmail).state.applications ∧
      a2 ∈ (submitApplication (submitApplication st jobId candidateName candidateEmail).state
          jobId candidateName candidateEmail).state.applications ∧
      a1.candidateEmail = candidateEmail ∧ a1.jobId = jobId ∧
      a2.candidateEmail = candidateEmail ∧ a2.jobId = jobId := by
  refine ⟨⟨st.nextAppId, candidateName, candidateEmail, jobId⟩,
    ⟨st.nextAppId + 1, candidateName, candidateEmail, jobId⟩,
    ?_, ?_, ?_, ?_, ?_, rfl, rfl, rfl, rfl⟩ <;>
    simp [submitApplication, hv, hj]

/-- Concrete well-formed job identifier used by the witnesses. -/
def wJobId : String := "507f1f77bcf86cd799439011"

/-- Concrete stored job used by the witnesses, owned by employer `e1`. -/
def demoJob : Job := ⟨wJobId, "Engineer", "Builds things", "NYC", ⟨60000, 90000⟩, "e1"⟩

/-- Concrete server state used by the witnesses: one job, no applications,
employer `e1` registered on socket `sock1`. -/
def demoState : AppState := ⟨[demoJob], [], 0, [("e1", "sock1")]⟩

/-- Witness for C1 at a concrete input. -/
theorem submit_success_round_trip_witness :
    ∃ app : Application,
      (submitApplication demoState wJobId "Ada" "a@b.co").result = .created app ∧
      (submitApplication demoState wJobId "Ada" "a@b.co").result.status = 201 ∧
      app.jobId = wJobId ∧
      app.candidateEmail = "a@b.co" ∧
      app ∈ (submitApplication demoState wJobId "Ada" "a@b.co").state.applications :=
  submit_success_round_trip demoState wJobId "Ada" "a@b.co" demoJob (by decide) (by decide)

/-- Witness for C2 at a concrete input: an absent (but well-formed) job id,
with one and with two employers registered in the registry. -/
theorem submit_missing_job_not_found_witness :
    (submitApplication demoState "507f1f77bcf86cd799439099" "Ada" "a@b.co").result
      = .jobNotFound ∧
    (submitApplication demoState "507f1f77bcf86cd799439099" "Ada" "a@b.co").state
      = demoState ∧
    (submitApplication { demoState with employerSockets := [("e1", "sock1"), ("e2", "sock2")] }
        "507f1f77bcf86cd799439099" "Ada" "a@b.co").result = .jobNotFound :=
  ⟨(submit_missing_job_not_found demoState "507f1f77bcf86cd799439099" "Ada" "a@b.co"
      (by decide) (by decide)).1,
   (submit_missing_job_not_found demoState "507f1f77bcf86cd799439099" "Ada" "a@b.co"
      (by decide) (by decide)).2.2.1,
   (submit_missing_job_not_found demoState "507f1f77bcf86cd799439099" "Ada" "a@b.co"
      (by decide) (by decide)).2.2.2.2 [("e1", "sock1"), ("e2", "sock2")]⟩

/-- Witness for C3 at a concrete input: employer `e1` is registered on
`sock1`, so the submission emits exactly one event there and returns 201;
with an empty registry it emits nothing and still returns 201. -/
theorem submit_notification_dispatch_witness :
    (submitApplication demoState wJobId "Ada" "a@b.co").emitted
      = [("sock1", ⟨wJobId, ⟨"Ada", "a@b.co"⟩⟩)] ∧
    (submitApplication demoState wJobId "Ada" "a@b.co").result.status = 201 ∧
    (submitApplication { demoState with employerSockets := [] } wJobId "Ada" "a@b.co").result
      = (submitApplication demoState wJobId "Ada" "a@b.co").result :=
  ⟨(submit_notification_dispatch demoState wJobId "Ada" "a@b.co" demoJob
      (by decide) (by decide)).1 "sock1" (by decide),
   (submit_notification_dispatch demoState wJobId "Ada" "a@b.co" demoJob
      (by decide) (by decide)).2.2.1,
   ((submit_notification_dispatch demoState wJobId "Ada" "a@b.co" demoJob
      (by decide) (by decide)).2.2.2 []).1⟩

/-- Witness for C6 at a concrete input. -/
theorem submit_duplicate_applications_witness :
    ∃ a1 a2 : Application,
      (submitApplication demoState wJobId "Ada" "a@b.co").result = .created a1 ∧
      (submitApplication (submitApplication demoState wJobId "Ada" "a@b.co").state
          wJobId "Ada" "a@b.co").result = .created a2 ∧
      a1 ≠ a2 ∧
      a1 ∈ (submitApplication (submitApplication demoState wJobId "Ada" "a@b.co").state
          wJobId "Ada" "a@b.co").state.applications ∧
      a2 ∈ (submitApplication (submitApplication demoState wJobId "Ada" "a@b.co").state
          wJobId "Ada" "a@b.co").state.applications ∧
      a1.candidateEmail = "a@b.co" ∧ a1.jobId = wJobId ∧
      a2.candidateEmail = "a@b.co" ∧ a2.jobId = wJobId :=
  submit_duplicate_applications demoState wJobId "Ada" "a@b.co" demoJob (by decide) (by decide)

/-- C4: on update and delete of an existing job with a valid token, a subject
identity different from the stored employerId (string equality) yields
Forbidden and leaves the store unchanged; an equal subject succeeds, the update
stores exactly the field-updated record, and the delete removes the record. -/
theorem job_owner_authorization (jobs : List Job) (userId jobId : String)
    (b : UpdateBody) (job : Job)
    (hid : isMongoId jobId = true)
    (hb : validateUpdateBody b = [])
    (hj : findJob jobs jobId = some job) :
    (job.employerId ≠ userId →
      (updateJob jobs userId jobId b).1 = .forbidden ∧
      (updateJob jobs userId jobId b).2 = jobs ∧
      (deleteJob jobs userId jobId).1 = .forbidden ∧
      (deleteJob jobs userId jobId).2 = jobs) ∧
    (job.employerId = userId →
      (updateJob jobs userId jobId b).1 = .ok (applyUpdate job b) ∧
      applyUpdate job b ∈ (updateJob jobs userId jobId b).2 ∧
      (∀ x ∈ (updateJob jobs userId jobId b).2, x.id = jobId → x = applyUpdate job b) ∧
      (deleteJob jobs userId jobId).1 = .deleted ∧
      ∀ x ∈ (deleteJob jobs userId jobId).2, x.id ≠ jobId) := by
  have hjid : job.id = jobId := by simpa using List.find?_some hj
  have hmem : job ∈ jobs := List.mem_of_find?_eq_some hj
  constructor
  · intro hne
    refine ⟨?_, ?_, ?_, ?_⟩ <;> simp [updateJob, deleteJob, hid, hb, hj, hne]
  · intro heq
    have hupd : updateJob jobs userId jobId b
        = (.ok (applyUpdate job b),
           jobs.map fun j => if j.id = jobId then applyUpdate job b else j) := by
      simp [updateJob, hid, hb, hj, heq]
    have hdel : deleteJob jobs userId jobId
        = (.deleted, jobs.filter fun j => ¬ (j.id = jobId)) := by
      simp [deleteJob, hid, hj, heq]
    refine ⟨by simp [hupd], ?_, ?_, by simp [hdel], ?_⟩
    · rw [hupd]
      exact List.mem_map.2 ⟨job, hmem, by simp [hjid]⟩
    · rw [hupd]
      intro x hx hxid
      rcases List.mem_map.1 hx with ⟨y, _, hxy⟩
      by_cases h : y.id = jobId
      · rw [if_pos h] at hxy
        exact hxy.symm
      · rw [if_neg h] at hxy
        exact absurd (hxy ▸ hxid) h
    · rw [hdel]
      intro x hx
      simpa using (List.mem_filter.1 hx).2

/-- Witness for C4 at a concrete input: employer `e2` is refused with
Forbidden on both update and delete of `e1`'s job; employer `e1` succeeds,
and after the delete no record with that id remains. -/
theorem job_owner_authorization_witness :
    (updateJob [demoJob] "e2" wJobId ⟨.undef, .undef, .undef, none⟩).1 = .forbidden ∧
    (deleteJob [demoJob] "e2" wJobId).1 = .forbidden ∧
    (updateJob [demoJob] "e1" wJobId ⟨.undef, .undef, .undef, none⟩).1
      = .ok (applyUpdate demoJob ⟨.undef, .undef, .undef, none⟩) ∧
    (deleteJob [demoJob] "e1" wJobId).1 = .deleted := by
  have h2 := job_owner_authorization [demoJob] "e2" wJobId
    ⟨.undef, .undef, .undef, none⟩ demoJob (by decide) (by decide) (by decide)
  have h1 := job_owner_authorization [demoJob] "e1" wJobId
    ⟨.undef, .undef, .undef, none⟩ demoJob (by decide) (by decide) (by decide)
  exact ⟨(h2.1 (by decide)).1, (h2.1 (by decide)).2.2.1,
    (h1.2 (by decide)).1, (h1.2 (by decide)).2.2.2.1⟩

/-- C9: a valid owner update changes only the supplied truthy fields among
title, description, location and salaryRange; an absent or falsy field keeps
its prior stored value, and employerId and the record identity never change. -/
theorem update_frame_effect (jobs : List Job) (userId jobId : String)
    (b : UpdateBody) (job : Job)
    (hid : isMongoId jobId = true)
    (hb : validateUpdateBody b = [])
    (hj : findJob jobs jobId = some job)
    (hown : job.employerId = userId) :
    (updateJob jobs userId jobId b).1 = .ok (applyUpdate job b) ∧
    (applyUpdate job b).employerId = job.employerId ∧
    (applyUpdate job b).id = job.id ∧
    (b.title.truthy = false → (applyUpdate job b).title = job.title) ∧
    (∀ s, b.title = .str s → s ≠ "" → (applyUpdate job b).title = s) ∧
    (b.description.truthy = false → (applyUpdate job b).description = job.description) ∧
    (∀ s, b.description = .str s → s ≠ "" → (applyUpdate job b).description = s) ∧
    (b.location.truthy = false → (applyUpdate job b).location = job.location) ∧
    (∀ s, b.location = .str s → s ≠ "" → (applyUpdate job b).location = s) ∧
    (b.salaryRange = none → (applyUpdate job b).salaryRange = job.salaryRange) ∧
    (∀ r, b.salaryRange = some r → (applyUpdate job b).salaryRange = r) := by
  refine ⟨by simp [updateJob, hid, hb, hj, hown], rfl, rfl, ?_, ?_, ?_, ?_, ?_, ?_, ?_, ?_⟩
  · intro ht
    cases h : b.title with
    | undef => simp [applyUpdate, JsStr.orOld, h]
    | nullv => simp [applyUpdate, JsStr.orOld, h]
    | str s =>
      rw [h] at ht
      have hs : s = "" := by simpa [JsStr.truthy] using ht
      simp [applyUpdate, JsStr.orOld, h, hs]
  · intro s hs hne
    simp [applyUpdate, JsStr.orOld, hs, hne]
  · intro ht
    cases h : b.description with
    | undef => simp [applyUpdate, JsStr.orOld, h]
    | nullv => simp [applyUpdate, JsStr.orOld, h]
    | str s =>
      rw [h] at ht
      have hs : s = "" := by simpa [JsStr.truthy] using ht
      simp [applyUpdate, JsStr.orOld, h, hs]
  · intro s hs hne
    simp [applyUpdate, JsStr.orOld, hs, hne]
  · intro ht
    cases h : b.location with
    | undef => simp [applyUpdate, JsStr.orOld, h]
    | nullv => simp [applyUpdate, JsStr.orOld, h]
    | str s =>
      rw [h] at ht
      have hs : s = "" := by simpa [JsStr.truthy] using ht
      simp [applyUpdate, JsStr.orOld, h, hs]
  · intro s hs hne
    simp [applyUpdate, JsStr.orOld, hs, hne]
  · intro h
    simp [applyUpdate, h]
  · intro r h
    simp [applyUpdate, h]

/-- Witness for C9 at a concrete input: updating only the title leaves
description, location, salaryRange and employerId at their stored values. -/
theorem update_frame_effect_witness :
    (updateJob [demoJob] "e1" wJobId ⟨.str "Staff Engineer", .undef, .undef, none⟩).1
      = .ok (applyUpdate demoJob ⟨.str "Staff Engineer", .undef, .undef, none⟩) ∧
    (applyUpdate demoJob ⟨.str "Staff Engineer", .undef, .undef, none⟩).title
      = "Staff Engineer" ∧
    (applyUpdate demoJob ⟨.str "Staff Engineer", .undef, .undef, none⟩).description
      = demoJob.description ∧
    (applyUpdate demoJob ⟨.str "Staff Engineer", .undef, .undef, none⟩).location
      = demoJob.location ∧
    (applyUpdate demoJob ⟨.str "Staff Engineer", .undef, .undef, none⟩).salaryRange
      = demoJob.salaryRange ∧
    (applyUpdate demoJob ⟨.str "Staff Engineer", .undef, .undef, none⟩).employerId
      = demoJob.employerId := by
  obtain ⟨h1, h2, h3, h4, h5, h6, h7, h8, h9, h10, h11⟩ :=
    update_frame_effect [demoJob] "e1" wJobId
      ⟨.str "Staff Engineer", .undef, .undef, none⟩ demoJob
      (by decide) (by decide) (by decide) (by decide)
  exact ⟨h1, h5 "Staff Engineer" rfl (by decide), h6 (by decide), h8 (by decide), h10 rfl, h2⟩

/-- Membership in a search result: the job is stored, passes the free-text
filter when one is given, and satisfies both salary bounds when given. -/
lemma mem_searchJobs (jobs : List Job) (tf : Option (Job → Bool))
    (mn mx : Option Int) (j : Job) :
    j ∈ searchJobs jobs tf mn mx ↔
      j ∈ jobs ∧ (match tf with | some p => p j | none => true) = true ∧
      (∀ k, mn = some k → k ≤ j.salaryRange.min) ∧
      (∀ k, mx = some k → j.salaryRange.max ≤ k) := by
  cases mn <;> cases mx <;>
    simp [searchJobs, List.mem_filter, and_assoc]

/-- C5: a search result holds exactly the stored jobs that pass the other
filters and whose stored salaryRange.min is at least the given minSalary and
whose stored salaryRange.max is at most the given maxSalary; in particular a
job with stored min below the given minSalary is excluded even when its stored
max exceeds it (subset-range, not overlap, semantics), and symmetrically for
maxSalary. -/
theorem search_salary_subset_semantics (jobs : List Job) (tf : Option (Job → Bool))
    (mn mx : Option Int) (m : Int) (j : Job) :
    (j ∈ searchJobs jobs tf mn mx ↔
      j ∈ jobs ∧ (match tf with | some p => p j | none => true) = true ∧
      (∀ k, mn = some k → k ≤ j.salaryRange.min) ∧
      (∀ k, mx = some k → j.salaryRange.max ≤ k)) ∧
    (j.salaryRange.min < m → m ≤ j.salaryRange.max →
      j ∉ searchJobs jobs tf (some m) mx) ∧
    (m < j.salaryRange.max → j ∉ searchJobs jobs tf mn (some m)) := by
  refine ⟨mem_searchJobs jobs tf mn mx j, ?_, ?_⟩
  · intro hlt _ hmem
    have h := ((mem_searchJobs jobs tf (some m) mx j).1 hmem).2.2.1 m rfl
    omega
  · intro hlt hmem
    have h := ((mem_searchJobs jobs tf mn (some m) j).1 hmem).2.2.2 m rfl
    omega

/-- Concrete job whose stored salary minimum (50000) lies below the witness's
minSalary filter (60000) while its maximum (90000) exceeds it. -/
def lowJob : Job := ⟨"507f1f77bcf86cd799439022", "Dev", "Code", "LA", ⟨50000, 90000⟩, "e2"⟩

/-- Witness for C5 at a concrete input: minSalary 60000 excludes the job with
stored range 50000-90000 and keeps the one with stored min 60000; maxSalary
80000 excludes the job with stored max 90000. -/
theorem search_salary_subset_semantics_witness :
    lowJob ∉ searchJobs [demoJob, lowJob] none (some 60000) none ∧
    demoJob ∈ searchJobs [demoJob, lowJob] none (some 60000) none ∧
    lowJob ∉ searchJobs [demoJob, lowJob] none none (some 80000) := by
  refine ⟨(search_salary_subset_semantics [demoJob, lowJob] none none none 60000 lowJob).2.1
      (by decide) (by decide), ?_,
    (search_salary_subset_semantics [demoJob, lowJob] none none none 80000 lowJob).2.2
      (by decide)⟩
  exact (search_salary_subset_semantics [demoJob, lowJob] none (some 60000) none 0
      demoJob).1.mpr
    ⟨by decide, rfl, fun k hk => by cases hk; decide, fun k hk => by cases hk⟩

/-- C7: with well-formed input, a login whose email matches a stored employer
but whose password fails the bcrypt comparison is answered 401
`Invalid email or password`, and that response is identical to the one for any
well-formed login whose email matches no stored employer. -/
theorem login_indistinguishable_failure (employers : List Employer)
    (cmp : String → String → Bool) (email password : String) (emp : Employer)
    (hve : isEmail email = true) (hvp : (password != "") = true)
    (hfind : employers.find? (fun e => decide (e.email = email)) = some emp)
    (hpw : cmp password emp.password = false) :
    loginEmployer employers cmp email password
      = .unauthorized "Invalid email or password" ∧
    ∀ (employers2 : List Employer) (cmp2 : String → String → Bool)
      (email2 password2 : String),
      isEmail email2 = true → (password2 != "") = true →
      employers2.find? (fun e => decide (e.email = email2)) = none →
      loginEmployer employers2 cmp2 email2 password2
        = loginEmployer employers cmp email password := by
  have h1 : loginEmployer employers cmp email password
      = .unauthorized "Invalid email or password" := by
    simp [loginEmployer, hve, hvp, hfind, hpw]
  refine ⟨h1, ?_⟩
  intro employers2 cmp2 email2 password2 hve2 hvp2 hnone
  rw [h1]
  simp [loginEmployer, hve2, hvp2, hnone]

/-- Concrete employer account used by the login witness. -/
def demoEmployer : Employer := ⟨"e1", "Acme", "boss@acme.co", "hash1"⟩

/-- Witness for C7 at a concrete input: with a password comparison that always
rejects, the wrong-password response equals the unknown-email response. -/
theorem login_indistinguishable_failure_witness :
    loginEmployer [demoEmployer] (fun _ _ => false) "boss@acme.co" "guess"
      = .unauthorized "Invalid email or password" ∧
    loginEmployer [] (fun _ _ => false) "who@acme.co" "guess"
      = loginEmployer [demoEmployer] (fun _ _ => false) "boss@acme.co" "guess" := by
  have h := login_indistinguishable_failure [demoEmployer] (fun _ _ => false)
    "boss@acme.co" "guess" demoEmployer (by decide) (by decide) (by decide) rfl
  exact ⟨h.1, h.2 [] (fun _ _ => false) "who@acme.co" "guess" (by decide) (by decide) rfl⟩

/-- Concrete valid create-job body used for C8. -/
def demoCreateBody : CreateJobBody := ⟨"Engineer", "Builds things", "NYC", ⟨60000, 90000⟩⟩

/-- C8 counterexample: a create-job request with valid input and no
authentication (the route's auth middleware is commented out, so `req.user`
is undefined) is answered 403, not 201, and nothing is stored. -/
theorem create_job_unauthenticated_counterexample :
    validateCreateJob demoCreateBody = [] ∧
    (createJob [] "507f1f77bcf86cd799439033" none demoCreateBody).1
      = .forbiddenNoEmployer ∧
    (createJob [] "507f1f77bcf86cd799439033" none demoCreateBody).1.status = 403 ∧
    (createJob [] "507f1f77bcf86cd799439033" none demoCreateBody).1.status ≠ 201 ∧
    (createJob [] "507f1f77bcf86cd799439033" none demoCreateBody).2 = [] := by
  decide

/-- C8 as amended: with valid input, create-job without an attached employer
identity fails 403 (`Unauthorized: Employer ID missing.`) and stores nothing;
with an identity it succeeds 201 and appends the created job; invalid input
fails 400 with the validation errors. -/
theorem create_job_requires_identity (jobs : List Job) (newId : String)
    (b : CreateJobBody) (hv : validateCreateJob b = []) :
    ((createJob jobs newId none b).1 = .forbiddenNoEmployer ∧
     (createJob jobs newId none b).1.status = 403 ∧
     (createJob jobs newId none b).2 = jobs) ∧
    (∀ eid, ∃ job : Job,
        (createJob jobs newId (some eid) b).1 = .created job ∧
        (createJob jobs newId (some eid) b).1.status = 201 ∧
        job.title = b.title ∧ job.description = b.description ∧
        job.location = b.location ∧ job.salaryRange = b.salaryRange ∧
        job.employerId = eid ∧
        (createJob jobs newId (some eid) b).2 = jobs ++ [job]) ∧
    (∀ b' : CreateJobBody, validateCreateJob b' ≠ [] →
        (createJob jobs newId none b').1 = .badRequest (validateCreateJob b') ∧
        (createJob jobs newId none b').1.status = 400) := by
  refine ⟨⟨?_, ?_, ?_⟩, fun eid =>
      ⟨⟨newId, b.title, b.description, b.location, b.salaryRange, eid⟩,
        ?_, ?_, rfl, rfl, rfl, rfl, rfl, ?_⟩, fun b' hb' => ⟨?_, ?_⟩⟩
  · simp [createJob, hv]
  · simp [createJob, hv, CreateResult.status]
  · simp [createJob, hv]
  · simp [createJob, hv]
  · simp [createJob, hv, CreateResult.status]
  · simp [createJob, hv]
  · simp [createJob, hb']
  · simp [createJob, hb', CreateResult.status]

/-- Witness for the amended C8 at a concrete input. -/
theorem create_job_requires_identity_witness :
    (createJob [] "507f1f77bcf86cd799439033" none demoCreateBody).1
      = .forbiddenNoEmployer ∧
    ∃ job : Job,
      (createJob [] "507f1f77bcf86cd799439033" (some "e1") demoCreateBody).1
        = .created job ∧ job.employerId = "e1" := by
  have h := create_job_requires_identity [] "507f1f77bcf86cd799439033" demoCreateBody
    (by decide)
  obtain ⟨job, h1, _, _, _, _, _, h7, _⟩ := h.2.1 "e1"
  exact ⟨h.1.1, job, h1, h7⟩

/-- C10: a socket disconnect scans the registry in order and removes exactly
the first entry whose channel equals the disconnecting socket's id (later
entries with the same channel id remain); when no entry has that channel id
the registry is unchanged. -/
theorem disconnect_removes_first_match (reg : List (String × String)) (sid : String) :
    ((∀ x ∈ reg, x.snd ≠ sid) → disconnectChannel reg sid = reg) ∧
    (∀ pre e post, reg = pre ++ e :: post → e.snd = sid →
      (∀ x ∈ pre, x.snd ≠ sid) →
      disconnectChannel reg sid = pre ++ post) := by
  constructor
  · intro h
    induction reg with
    | nil => rfl
    | cons a rest ih =>
      have ha : a.snd ≠ sid := h a (List.mem_cons_self a rest)
      simp only [disconnectChannel, if_neg ha, List.cons.injEq, true_and]
      exact ih fun x hx => h x (List.mem_cons_of_mem a hx)
  · intro pre e post hsplit he hpre
    subst hsplit
    induction pre with
    | nil => simp [disconnectChannel, he]
    | cons a rest ih =>
      have ha : a.snd ≠ sid := hpre a (List.mem_cons_self a rest)
      simp only [List.cons_append, disconnectChannel, if_neg ha, List.cons.injEq, true_and]
      exact ih fun x hx => hpre x (List.mem_cons_of_mem a hx)

/-- Witness for C10 at a concrete input: two employers registered with the
same socket id — the disconnect drops only the first, and a disconnect of an
unknown socket id changes nothing. -/
theorem disconnect_removes_first_match_witness :
    disconnectChannel [("e1", "s1"), ("e2", "s1"), ("e3", "s2")] "s1"
      = [("e2", "s1"), ("e3", "s2")] ∧
    disconnectChannel [("e1", "s1"), ("e2", "s1"), ("e3", "s2")] "s9"
      = [("e1", "s1"), ("e2", "s1"), ("e3", "s2")] :=
  ⟨(disconnect_removes_first_match [("e1", "s1"), ("e2", "s1"), ("e3", "s2")] "s1").2
      [] ("e1", "s1") [("e2", "s1"), ("e3", "s2")] rfl rfl (by simp),
   (disconnect_removes_first_match [("e1", "s1"), ("e2", "s1"), ("e3", "s2")] "s9").1
      (by decide)⟩

end JobApi
